import Mathlib

/-!
Shallow embedding of the rtaudio-rs stream engine (src/buffer.rs, src/error.rs,
src/options.rs, src/stream.rs, src/host.rs) and proofs about it.

Modelling conventions:
- Raw pointers (`*mut c_void`, `rtaudio_t`, `*const c_char`) are `Nat`, with `0`
  standing for the null pointer.  A possibly-null C string is `Option String`
  (`none` = null).
- Backend memory is an abstract map `Mem : Nat → Int`; a Rust slice obtained
  with `slice::from_raw_parts(ptr, len)` is the list of the `len` abstract
  sample values stored at `ptr`.  Sample values themselves are opaque: only
  lengths and emptiness matter to the verified properties.
- Calls into the native `rtaudio_sys` backend are recorded in an explicit
  trace (`List BackendCall`), and the values the backend reports back
  (negotiated frames, latency, sample rate, error state) are supplied as a
  scripted record, so every control path of the wrapper is a pure function of
  its inputs and that script.
- The process-wide `ERROR_CB_SINGLETON` mutex slot is threaded explicitly as
  an `Option Nat` (a handler identifier); invoking a boxed closure is recorded
  as an emitted event rather than executed.
-/

namespace Rtaudio

/-- Abstract backend-owned memory: the sample value stored at each address. -/
abbrev Mem := Nat → Int

/-- Reading a Rust slice of length `len` at pointer `ptr` out of abstract
memory (`std::slice::from_raw_parts`). -/
def readSlice (mem : Mem) (ptr len : Nat) : List Int :=
  (List.range len).map (fun i => mem (ptr + i))

/-- The sample format type (src/enums.rs `SampleFormat`). -/
inductive SampleFormat
  | SInt8
  | SInt16
  | SInt24
  | SInt32
  | Float32
  | Float64
deriving DecidableEq, Repr

/-- The input/output audio buffers (src/buffer.rs `Buffers`).  Each variant
carries the output slice and the input slice; for `SInt24` the slices are raw
bytes, three per sample. -/
inductive Buffers
  | SInt8 (output : List Int) (input : List Int)
  | SInt16 (output : List Int) (input : List Int)
  | SInt24 (output : List Int) (input : List Int)
  | SInt32 (output : List Int) (input : List Int)
  | Float32 (output : List Int) (input : List Int)
  | Float64 (output : List Int) (input : List Int)
deriving DecidableEq, Repr

/-- src/buffer.rs `Buffers::from_raw`: format-dispatched construction of the
typed views.  `out` and `in_` are the raw pointers (0 = null); each side is the
empty slice when its pointer is null or its channel count is zero, otherwise a
slice of `channels * frames` elements (`channels * frames * 3` bytes for
`SInt24`) read at the pointer. -/
def Buffers.from_raw (mem : Mem) (out : Nat) (in_ : Nat) (frames : Nat)
    (out_channels : Nat) (in_channels : Nat) (sample_format : SampleFormat) :
    Buffers :=
  match sample_format with
  | .SInt8 =>
      let output : List Int := if out = 0 ∨ out_channels = 0 then []
        else readSlice mem out (out_channels * frames)
      let input : List Int := if in_ = 0 ∨ in_channels = 0 then []
        else readSlice mem in_ (in_channels * frames)
      Buffers.SInt8 output input
  | .SInt16 =>
      let output : List Int := if out = 0 ∨ out_channels = 0 then []
        else readSlice mem out (out_channels * frames)
      let input : List Int := if in_ = 0 ∨ in_channels = 0 then []
        else readSlice mem in_ (in_channels * frames)
      Buffers.SInt16 output input
  | .SInt24 =>
      let output : List Int := if out = 0 ∨ out_channels = 0 then []
        else readSlice mem out (out_channels * frames * 3)
      let input : List Int := if in_ = 0 ∨ in_channels = 0 then []
        else readSlice mem in_ (in_channels * frames * 3)
      Buffers.SInt24 output input
  | .SInt32 =>
      let output : List Int := if out = 0 ∨ out_channels = 0 then []
        else readSlice mem out (out_channels * frames)
      let input : List Int := if in_ = 0 ∨ in_channels = 0 then []
        else readSlice mem in_ (in_channels * frames)
      Buffers.SInt32 output input
  | .Float32 =>
      let output : List Int := if out = 0 ∨ out_channels = 0 then []
        else readSlice mem out (out_channels * frames)
      let input : List Int := if in_ = 0 ∨ in_channels = 0 then []
        else readSlice mem in_ (in_channels * frames)
      Buffers.Float32 output input
  | .Float64 =>
      let output : List Int := if out = 0 ∨ out_channels = 0 then []
        else readSlice mem out (out_channels * frames)
      let input : List Int := if in_ = 0 ∨ in_channels = 0 then []
        else readSlice mem in_ (in_channels * frames)
      Buffers.Float64 output input

/-- The output slice of a buffer view. -/
def Buffers.output : Buffers → List Int
  | .SInt8 o _ => o
  | .SInt16 o _ => o
  | .SInt24 o _ => o
  | .SInt32 o _ => o
  | .Float32 o _ => o
  | .Float64 o _ => o

/-- The input slice of a buffer view. -/
def Buffers.input : Buffers → List Int
  | .SInt8 _ i => i
  | .SInt16 _ i => i
  | .SInt24 _ i => i
  | .SInt32 _ i => i
  | .Float32 _ i => i
  | .Float64 _ i => i

/-- The sample format a buffer view variant corresponds to. -/
def Buffers.sample_format : Buffers → SampleFormat
  | .SInt8 _ _ => .SInt8
  | .SInt16 _ _ => .SInt16
  | .SInt24 _ _ => .SInt24
  | .SInt32 _ _ => .SInt32
  | .Float32 _ _ => .Float32
  | .Float64 _ _ => .Float64

/-- Number of slice elements per sample: 3 bytes for the packed 24-bit format,
one native scalar for every other format. -/
def sampleUnits : SampleFormat → Nat
  | .SInt24 => 3
  | _ => 1

/-- Modelled from the spec: the raw `rtaudio_error_t` codes come from the
`rtaudio-sys` crate, which is not under src/.  The spec's error taxonomy
(section 7: Warning, Unknown, NoDevicesFound, InvalidDevice,
DeviceDisconnected, MemoryError, InvalidParameter, InvalidUse, DriverError,
SystemError, ThreadError) is numbered here in order after a distinguished
no-error code; only distinctness of the codes matters to the wrapper. -/
def RTAUDIO_ERROR_NONE : Int := 0

/-- Raw code for a non-critical warning. -/
def RTAUDIO_ERROR_WARNING : Int := 1

/-- Raw code for an unspecified error. -/
def RTAUDIO_ERROR_UNKNOWN : Int := 2

/-- Raw code for no devices found. -/
def RTAUDIO_ERROR_NO_DEVICES_FOUND : Int := 3

/-- Raw code for an invalid device ID. -/
def RTAUDIO_ERROR_INVALID_DEVICE : Int := 4

/-- Raw code for a disconnected device. -/
def RTAUDIO_ERROR_DEVICE_DISCONNECT : Int := 5

/-- Raw code for a memory allocation error. -/
def RTAUDIO_ERROR_MEMORY_ERROR : Int := 6

/-- Raw code for an invalid parameter. -/
def RTAUDIO_ERROR_INVALID_PARAMETER : Int := 7

/-- Raw code for an incorrectly called function. -/
def RTAUDIO_ERROR_INVALID_USE : Int := 8

/-- Raw code for a system driver error. -/
def RTAUDIO_ERROR_DRIVER_ERROR : Int := 9

/-- Raw code for a system error. -/
def RTAUDIO_ERROR_SYSTEM_ERROR : Int := 10

/-- Raw code for a thread error. -/
def RTAUDIO_ERROR_THREAD_ERROR : Int := 11

/-- The error kind taxonomy (src/error.rs `RtAudioErrorType`; the source's
spellings `Unkown` and `InvalidParamter` are kept). -/
inductive RtAudioErrorType
  | Warning
  | Unkown
  | NoDevicesFound
  | InvalidDevice
  | DeviceDisconnect
  | MemoryError
  | InvalidParamter
  | InvalidUse
  | DriverError
  | SystemError
  | ThreadError
deriving DecidableEq, Repr

/-- src/error.rs `RtAudioErrorType::from_raw`: maps a raw backend error code
to an error kind; the no-error code maps to `none` and any unrecognized code
falls through to `Unkown`. -/
def RtAudioErrorType.from_raw (e : Int) : Option RtAudioErrorType :=
  if e = RTAUDIO_ERROR_NONE then none
  else if e = RTAUDIO_ERROR_WARNING then some .Warning
  else if e = RTAUDIO_ERROR_UNKNOWN then some .Unkown
  else if e = RTAUDIO_ERROR_NO_DEVICES_FOUND then some .NoDevicesFound
  else if e = RTAUDIO_ERROR_INVALID_DEVICE then some .InvalidDevice
  else if e = RTAUDIO_ERROR_DEVICE_DISCONNECT then some .DeviceDisconnect
  else if e = RTAUDIO_ERROR_MEMORY_ERROR then some .MemoryError
  else if e = RTAUDIO_ERROR_INVALID_PARAMETER then some .InvalidParamter
  else if e = RTAUDIO_ERROR_INVALID_USE then some .InvalidUse
  else if e = RTAUDIO_ERROR_DRIVER_ERROR then some .DriverError
  else if e = RTAUDIO_ERROR_SYSTEM_ERROR then some .SystemError
  else if e = RTAUDIO_ERROR_THREAD_ERROR then some .ThreadError
  else some .Unkown

/-- A typed error: kind plus optional message (src/error.rs `RtAudioError`). -/
structure RtAudioError where
  type_ : RtAudioErrorType
  msg : Option String
deriving DecidableEq, Repr

/-- The message-normalization pattern both src/error.rs `check_for_error` and
src/stream.rs `raw_error_callback` apply inline to a possibly-null C string:
a null pointer or an empty string becomes `none`. -/
def lossyMsg : Option String → Option String
  | none => none
  | some s => if s = "" then none else some s

/-- The backend error state read back through `rtaudio_error_type` and
`rtaudio_error`: the raw error code currently set on the handle and the
possibly-null message string. -/
structure ErrState where
  code : Int
  msg : Option String
deriving DecidableEq, Repr

/-- src/error.rs `check_for_error`: queries the backend error state; a warning
is logged (returned in the second component) and the operation continues with
`Except.ok`; any other reported kind aborts with `Except.error` carrying the
kind and optional message; no reported error is `Except.ok` with nothing
logged. -/
def check_for_error (raw : ErrState) : Except RtAudioError Unit × List RtAudioError :=
  match RtAudioErrorType.from_raw raw.code with
  | some type_ =>
      let e : RtAudioError := { type_ := type_, msg := lossyMsg raw.msg }
      if e.type_ = RtAudioErrorType.Warning then
        (Except.ok (), [e])
      else
        (Except.error e, [])
  | none => (Except.ok (), [])

/-- Identifier of an installed data callback: either the inert closure the
wrapper itself installs (`Box::new(|_, _, _| {})`) or a user-supplied closure
tagged by an identifier. -/
inductive DataCb
  | noop
  | user (id : Nat)
deriving DecidableEq, Repr

/-- Information about a running stream (src/stream.rs `StreamInfo`). -/
structure StreamInfo where
  out_channels : Nat
  in_channels : Nat
  sample_format : SampleFormat
  sample_rate : Nat
  max_frames : Nat
  deinterleaved : Bool
  latency : Option Nat
  stream_time : Float

/-- The pinned per-stream state handed across the FFI boundary
(src/stream.rs `CallbackContext`): a copy of the stream info plus the
currently installed data callback. -/
structure CallbackContext where
  info : StreamInfo
  cb : DataCb

/-- Modelled from the spec: the `RTAUDIO_STATUS_INPUT_OVERFLOW` constant of
the `rtaudio-sys` crate is not under src/; a single status bit. -/
def RTAUDIO_STATUS_INPUT_OVERFLOW : Nat := 1

/-- Modelled from the spec: the `RTAUDIO_STATUS_OUTPUT_UNDERFLOW` constant of
the `rtaudio-sys` crate is not under src/; a single status bit. -/
def RTAUDIO_STATUS_OUTPUT_UNDERFLOW : Nat := 2

/-- The bitflags `StreamStatus::from_bits_truncate`: keep only the two known
status bits. -/
def StreamStatus.from_bits_truncate (s : Nat) : Nat :=
  Nat.land s (Nat.lor RTAUDIO_STATUS_INPUT_OVERFLOW RTAUDIO_STATUS_OUTPUT_UNDERFLOW)

/-- One invocation of a user data callback, as emitted by the realtime
callback shim: which installed callback ran, with which buffer view, stream
info snapshot and status flags. -/
structure DataCbEvent where
  cb : DataCb
  buffers : Buffers
  info : StreamInfo
  status : Nat

/-- Result of one run of the raw realtime data callback: the C return code,
the callback context after the run (`none` when the userdata pointer was
null), and the user-callback invocations that happened. -/
structure DataCbResult where
  ret : Int
  userdata : Option CallbackContext
  calls : List DataCbEvent

/-- src/stream.rs `raw_data_callback`: the C-ABI shim the backend's realtime
thread invokes once per period.  A null userdata pointer aborts with code 2
touching nothing; zero frames returns 0 without invoking the user callback;
otherwise the context's `stream_time` is set to the backend-supplied elapsed
time, the buffer views are materialized, and the installed user callback is
invoked exactly once with them, returning 0. -/
def raw_data_callback (mem : Mem) (out : Nat) (in_ : Nat) (frames : Nat)
    (stream_time : Float) (status : Nat) (userdata : Option CallbackContext) :
    DataCbResult :=
  match userdata with
  | none => { ret := 2, userdata := none, calls := [] }
  | some cb_context =>
    if frames = 0 then
      { ret := 0, userdata := some cb_context, calls := [] }
    else
      let cb_context := { cb_context with
        info := { cb_context.info with stream_time := stream_time } }
      let buffers := Buffers.from_raw mem out in_ frames
        cb_context.info.out_channels cb_context.info.in_channels
        cb_context.info.sample_format
      let status := StreamStatus.from_bits_truncate status
      { ret := 0,
        userdata := some cb_context,
        calls := [{ cb := cb_context.cb, buffers := buffers,
                    info := cb_context.info, status := status }] }

/-- src/stream.rs `raw_error_callback`: the C-ABI error bridge.  `slot` is the
process-wide `ERROR_CB_SINGLETON` handler slot; the result is the slot after
the call plus the handler invocations that happened (handler identifier with
the error it received).  A no-error code or a warning returns immediately,
leaving the slot untouched; any other kind takes the handler out of the slot
and invokes it once if it was present. -/
def raw_error_callback (raw_err : Int) (raw_msg : Option String)
    (slot : Option Nat) : Option Nat × List (Nat × RtAudioError) :=
  match RtAudioErrorType.from_raw raw_err with
  | none => (slot, [])
  | some type_ =>
    if type_ = RtAudioErrorType.Warning then
      (slot, [])
    else
      let e : RtAudioError := { type_ := type_, msg := lossyMsg raw_msg }
      match slot with
      | some cb => (none, [(cb, e)])
      | none => (none, [])

/-- A host session bound to one backend (src/host.rs `Host`): the native
handle pointer, 0 when nulled by an ownership transfer. -/
structure Host where
  raw : Nat
deriving DecidableEq, Repr

/-- Endpoint parameters for one side of a stream (src/options.rs
`DeviceParams`). -/
structure DeviceParams where
  device_id : Nat
  num_channels : Nat
  first_channel : Nat
deriving DecidableEq, Repr

/-- The raw `rtaudio_stream_parameters_t` record passed to the backend open
call. -/
structure rtaudio_stream_parameters_t where
  device_id : Nat
  num_channels : Nat
  first_channel : Nat
deriving DecidableEq, Repr

/-- src/options.rs `DeviceParams::to_raw`. -/
def DeviceParams.to_raw (p : DeviceParams) : rtaudio_stream_parameters_t :=
  { device_id := p.device_id,
    num_channels := p.num_channels,
    first_channel := p.first_channel }

/-- Modelled from the spec: `MAX_NAME_LENGTH` comes from the `rtaudio-sys`
crate, which is not under src/.  The stream-options documentation bounds the
display name at 511 bytes, so the nul-terminated C array holds 512 bytes. -/
def MAX_NAME_LENGTH : Nat := 512

/-- Modelled from the spec: the `RTAUDIO_FLAGS_NONINTERLEAVED` bit of the
`rtaudio-sys` crate is not under src/; the first stream-option flag bit. -/
def NONINTERLEAVED : Nat := 1

/-- bitflags `contains`: all bits of `flag` are set in `bits`. -/
def flagsContain (bits flag : Nat) : Bool :=
  Nat.land bits flag = flag

/-- Additional options for opening a stream (src/options.rs `StreamOptions`);
`flags` carries the raw `StreamFlags` bits. -/
structure StreamOptions where
  flags : Nat
  num_buffers : Nat
  priority : Int
  name : String
deriving DecidableEq, Repr

/-- The raw `rtaudio_stream_options_t` record passed to the backend open
call. -/
structure rtaudio_stream_options_t where
  flags : Nat
  num_buffers : Nat
  priority : Int
  name : List Nat
deriving DecidableEq, Repr

/-- src/options.rs `str_to_c_array`: converts a string to a fixed-size
nul-padded C byte array; fails when the string has an interior nul or its
nul-terminated UTF-8 encoding exceeds `maxLen` bytes. -/
def str_to_c_array (maxLen : Nat) (s : String) : Except Unit (List Nat) :=
  if s.toList.contains (Char.ofNat 0) then Except.error ()
  else if s.utf8ByteSize + 1 > maxLen then Except.error ()
  else Except.ok (s.toUTF8.toList.map (fun b => b.toNat) ++
    List.replicate (maxLen - s.utf8ByteSize) 0)

/-- src/options.rs `StreamOptions::to_raw`: builds the raw options record; an
invalid stream name is rejected with an `InvalidParamter` error. -/
def StreamOptions.to_raw (o : StreamOptions) :
    Except RtAudioError rtaudio_stream_options_t :=
  match str_to_c_array MAX_NAME_LENGTH o.name with
  | Except.error _ =>
      Except.error { type_ := RtAudioErrorType.InvalidParamter,
                     msg := some "stream name is invalid" }
  | Except.ok name =>
      Except.ok { flags := o.flags, num_buffers := o.num_buffers,
                  priority := o.priority, name := name }

/-- One call into a native `rtaudio_sys` function, recorded in the trace a
control operation produces.  Each call names the handle it was made on; the
open call additionally records the (possibly null) device-parameter
pointers. -/
inductive BackendCall
  | open_stream (handle : Nat) (output_device : Option rtaudio_stream_parameters_t)
      (input_device : Option rtaudio_stream_parameters_t)
  | close_stream (handle : Nat)
  | start_stream (handle : Nat)
  | stop_stream (handle : Nat)
  | get_stream_latency (handle : Nat)
  | get_stream_sample_rate (handle : Nat)
  | error_query (handle : Nat)
  | destroy (handle : Nat)
deriving DecidableEq, Repr

/-- Whether a backend call is the stream-open call. -/
def BackendCall.isOpen : BackendCall → Bool
  | .open_stream _ _ _ => true
  | _ => false

/-- Whether a backend call is the stream-close call. -/
def BackendCall.isClose : BackendCall → Bool
  | .close_stream _ => true
  | _ => false

/-- Whether a backend call destroys the native handle. -/
def BackendCall.isDestroy : BackendCall → Bool
  | .destroy _ => true
  | _ => false

/-- The scripted backend responses an open observes: the frame count the open
call writes back through `buffer_frames_res`, the error state after the open
call, the reported latency, the error state after the latency query, the
reported stream sample rate, and the error state after the sample-rate
query. -/
structure OpenBackend where
  negotiated_frames : Nat
  err_after_open : ErrState
  latency : Int
  err_after_latency : ErrState
  stream_sample_rate : Nat
  err_after_sr : ErrState
deriving DecidableEq, Repr

/-- An opened stream (src/stream.rs `Stream`): the negotiated info, the owned
native handle (0 once nulled by close), the started flag, and the pinned
callback context. -/
structure Stream where
  info : StreamInfo
  raw : Nat
  started : Bool
  cb_context : CallbackContext

/-- Result of one run of `Stream::new`: the stream or the returned host plus
error, the `ERROR_CB_SINGLETON` slot after the run, and the backend calls
made. -/
structure OpenResult where
  result : Except (Host × RtAudioError) Stream
  slot : Option Nat
  calls : List BackendCall

/-- src/stream.rs `Stream::new`: open a stream on a consumed host.  `slot` is
the process-wide error-handler slot on entry and `b` scripts the backend's
responses.  Mirrors the source control flow: convert options (failure returns
the host before any backend call); build the requested `StreamInfo`; register
the error handler in the slot; make the open call (null device-parameter
pointers for absent configs); after the open and after each of the two
read-back queries, check the backend error state and on a non-warning error
close the native stream, clear the slot and return the host with the error;
on success overwrite `max_frames`, `latency` (only when positive) and
`sample_rate` (only when positive) from the backend, copy the final info into
the pinned context and null the host's handle. -/
def Stream.new (host : Host) (output_device : Option DeviceParams)
    (input_device : Option DeviceParams) (sample_format : SampleFormat)
    (sample_rate : Nat) (buffer_frames : Nat) (options : StreamOptions)
    (error_callback : Nat) (slot : Option Nat) (b : OpenBackend) : OpenResult :=
  let raw := host.raw
  match options.to_raw with
  | Except.error e => { result := Except.error (host, e), slot := slot, calls := [] }
  | Except.ok _raw_options =>
    let info : StreamInfo := {
      out_channels := (output_device.map (fun p => p.num_channels)).getD 0,
      in_channels := (input_device.map (fun p => p.num_channels)).getD 0,
      sample_format := sample_format,
      sample_rate := sample_rate,
      max_frames := buffer_frames,
      deinterleaved := flagsContain options.flags NONINTERLEAVED,
      latency := none,
      stream_time := 0.0 }
    let cb_context : CallbackContext := { info := info, cb := DataCb.noop }
    let raw_output_device := output_device.map DeviceParams.to_raw
    let raw_input_device := input_device.map DeviceParams.to_raw
    let slot := some error_callback
    let buffer_frames_res := b.negotiated_frames
    let calls := [BackendCall.open_stream raw raw_output_device raw_input_device,
                  BackendCall.error_query raw]
    match (check_for_error b.err_after_open).fst with
    | Except.error e =>
        { result := Except.error (host, e), slot := none,
          calls := calls ++ [BackendCall.close_stream raw] }
    | Except.ok _ =>
      let info := { info with max_frames := buffer_frames_res }
      let latency := b.latency
      let info := if latency > 0 then { info with latency := some latency.toNat }
                  else info
      let calls := calls ++ [BackendCall.get_stream_latency raw,
                             BackendCall.error_query raw]
      match (check_for_error b.err_after_latency).fst with
      | Except.error e =>
          { result := Except.error (host, e), slot := none,
            calls := calls ++ [BackendCall.close_stream raw] }
      | Except.ok _ =>
        let sr := b.stream_sample_rate
        let info := if sr > 0 then { info with sample_rate := sr } else info
        let calls := calls ++ [BackendCall.get_stream_sample_rate raw,
                               BackendCall.error_query raw]
        match (check_for_error b.err_after_sr).fst with
        | Except.error e =>
            { result := Except.error (host, e), slot := none,
              calls := calls ++ [BackendCall.close_stream raw] }
        | Except.ok _ =>
          let cb_context := { cb_context with info := info }
          let stream : Stream := { info := info, raw := raw, started := false,
                                   cb_context := cb_context }
          { result := Except.ok stream, slot := slot, calls := calls }

/-- src/stream.rs `Stream::start`: installs the user data callback into the
pinned context, starts the backend stream, and on a backend error defensively
stops it again and returns the error without setting the started flag. -/
def Stream.start (s : Stream) (data_callback : Nat) (err : ErrState) :
    Except RtAudioError Unit × Stream × List BackendCall :=
  let s := { s with cb_context := { s.cb_context with cb := DataCb.user data_callback } }
  match (check_for_error err).fst with
  | Except.error e =>
      (Except.error e, s,
       [BackendCall.start_stream s.raw, BackendCall.error_query s.raw,
        BackendCall.stop_stream s.raw])
  | Except.ok _ =>
      (Except.ok (), { s with started := true },
       [BackendCall.start_stream s.raw, BackendCall.error_query s.raw])

/-- src/stream.rs `Stream::stop`: when started, stops the backend stream
(logging, not raising, any reported error), replaces the user callback with
the inert one and clears the started flag; otherwise does nothing and makes
no backend call. -/
def Stream.stop (s : Stream) (_err : ErrState) : Stream × List BackendCall :=
  if s.started then
    ({ s with started := false,
              cb_context := { s.cb_context with cb := DataCb.noop } },
     [BackendCall.stop_stream s.raw, BackendCall.error_query s.raw])
  else
    (s, [])

/-- src/stream.rs `Stream::close`: stops if needed, closes the native stream
(logging, not raising, any reported error), then repurposes the native handle
into a returned `Host` and nulls it in the stream so the stream's drop will
not release it.  The final stream value is returned alongside to expose that
nulling. -/
def Stream.close (s : Stream) (stop_err : ErrState) (_close_err : ErrState) :
    Host × Stream × List BackendCall :=
  let r := s.stop stop_err
  let calls := r.snd ++ [BackendCall.close_stream r.fst.raw,
                         BackendCall.error_query r.fst.raw]
  let host : Host := { raw := r.fst.raw }
  let s := { r.fst with raw := 0 }
  (host, s, calls)

/-- src/stream.rs `impl Drop for Stream`: clears the process-wide error slot;
then, unless the handle was already nulled by `close`, stops, closes and
destroys the native handle. -/
def Stream.drop (s : Stream) (stop_err : ErrState) (_close_err : ErrState)
    (_slot : Option Nat) : Option Nat × List BackendCall :=
  if s.raw = 0 then
    (none, [])
  else
    let r := s.stop stop_err
    (none, r.snd ++ [BackendCall.close_stream s.raw,
                     BackendCall.error_query s.raw,
                     BackendCall.destroy s.raw])

/-- A concrete stream-info value used to instantiate theorems on concrete
inputs. -/
def infoW : StreamInfo :=
  { out_channels := 2, in_channels := 0, sample_format := SampleFormat.Float32,
    sample_rate := 48000, max_frames := 256, deinterleaved := false,
    latency := none, stream_time := 0.0 }

/-- A concrete stopped stream with a live handle. -/
def streamW : Stream :=
  { info := infoW, raw := 1, started := false,
    cb_context := { info := infoW, cb := DataCb.noop } }

/-- A concrete started stream with a live handle. -/
def streamStartedW : Stream :=
  { info := infoW, raw := 1, started := true,
    cb_context := { info := infoW, cb := DataCb.user 5 } }

/-- A concrete backend error state reporting no error. -/
def errNoneW : ErrState := { code := 0, msg := none }

/-- Concrete stream options whose name converts successfully. -/
def optsW : StreamOptions :=
  { flags := 0, num_buffers := 4, priority := -1, name := "" }

/-- A scripted backend whose open call reports an invalid-use error. -/
def bkUseW : OpenBackend :=
  { negotiated_frames := 512, err_after_open := { code := 8, msg := none },
    latency := 0, err_after_latency := { code := 0, msg := none },
    stream_sample_rate := 0, err_after_sr := { code := 0, msg := none } }

/-- A scripted backend that opens successfully but reports a stream sample
rate of zero when queried. -/
def bkSr0W : OpenBackend :=
  { negotiated_frames := 512, err_after_open := { code := 0, msg := none },
    latency := 0, err_after_latency := { code := 0, msg := none },
    stream_sample_rate := 0, err_after_sr := { code := 0, msg := none } }

/-- A scripted backend that opens successfully and reports a positive latency
and sample rate. -/
def bkOkW : OpenBackend :=
  { negotiated_frames := 512, err_after_open := { code := 0, msg := none },
    latency := 64, err_after_latency := { code := 0, msg := none },
    stream_sample_rate := 44100, err_after_sr := { code := 0, msg := none } }

/-- The raw options record `optsW` converts to. -/
def roW : rtaudio_stream_options_t :=
  match optsW.to_raw with
  | Except.ok r => r
  | Except.error _ => { flags := 0, num_buffers := 0, priority := 0, name := [] }

/-- The stream produced by a concrete successful open against `bkOkW`. -/
def sNW : Stream :=
  match (Stream.new { raw := 1 } (some { device_id := 3, num_channels := 2, first_channel := 0 })
      none SampleFormat.Float32 48000 256 optsW 7 none bkOkW).result with
  | Except.ok s => s
  | Except.error _ => streamW

/-- C1: for every sample format among SInt8, SInt16, SInt24, SInt32, Float32
and Float64, every frame count and channel counts, the view built by
`Buffers.from_raw` is the variant of the requested format, its output slice
has length `out_channels * frames` (times 3 bytes for SInt24) and its input
slice has length `in_channels * frames` (times 3 bytes for SInt24); and
whenever the corresponding raw pointer is null or the corresponding channel
count is zero, that side of the view is the empty slice, so the null pointer
is never dereferenced. -/
theorem buffers_from_raw_view_lengths (mem : Mem)
    (out in_ frames out_channels in_channels : Nat) (fmt : SampleFormat) :
    (Buffers.from_raw mem out in_ frames out_channels in_channels fmt).sample_format = fmt
    ∧ (Buffers.from_raw mem out in_ frames out_channels in_channels fmt).output.length
        = (if out = 0 ∨ out_channels = 0 then 0
           else out_channels * frames * sampleUnits fmt)
    ∧ (Buffers.from_raw mem out in_ frames out_channels in_channels fmt).input.length
        = (if in_ = 0 ∨ in_channels = 0 then 0
           else in_channels * frames * sampleUnits fmt) := by
  cases fmt <;>
    refine ⟨rfl, ?_, ?_⟩ <;>
    simp only [Buffers.from_raw, Buffers.output, Buffers.input, sampleUnits] <;>
    split <;>
    simp [readSlice]

/-- C9: every run of the realtime data callback on an open stream (non-null
context pointer) leaves `out_channels`, `in_channels`, `sample_format`,
`sample_rate`, `max_frames`, `deinterleaved` and `latency` unchanged, leaves
the installed callback unchanged, and the only field it writes is
`stream_time`, set to the backend-supplied elapsed time on the invoking path
(with zero frames the callback returns before touching it). -/
theorem raw_data_callback_frame_effect (mem : Mem) (out in_ frames : Nat)
    (t : Float) (status : Nat) (ctx : CallbackContext) :
    (raw_data_callback mem out in_ frames t status (some ctx)).userdata
      = some { ctx with info := { ctx.info with
          stream_time := if frames = 0 then ctx.info.stream_time else t } }
    ∧ ((raw_data_callback mem out in_ frames t status (some ctx)).userdata.map
        (fun c => (c.info.out_channels, c.info.in_channels, c.info.sample_format,
                   c.info.sample_rate, c.info.max_frames, c.info.deinterleaved,
                   c.info.latency, c.cb)))
      = some (ctx.info.out_channels, ctx.info.in_channels, ctx.info.sample_format,
              ctx.info.sample_rate, ctx.info.max_frames, ctx.info.deinterleaved,
              ctx.info.latency, ctx.cb) := by
  by_cases h : frames = 0 <;> simp [raw_data_callback, h]

/-- C10: the realtime data callback shim returns the abort code 2 with no
state change and no invocation when the userdata context pointer is null;
with a context present it returns 0, and it invokes the installed user
callback exactly once unless the frame count is zero, in which case it
invokes nothing. -/
theorem raw_data_callback_dispatch (mem : Mem) (out in_ frames : Nat)
    (t : Float) (status : Nat) (ctx : CallbackContext) :
    (raw_data_callback mem out in_ frames t status none).ret = 2
    ∧ (raw_data_callback mem out in_ frames t status none).userdata = none
    ∧ (raw_data_callback mem out in_ frames t status none).calls = []
    ∧ (raw_data_callback mem out in_ frames t status (some ctx)).ret = 0
    ∧ ((raw_data_callback mem out in_ frames t status (some ctx)).calls.map
        (fun ev => ev.cb))
      = (if frames = 0 then [] else [ctx.cb]) := by
  by_cases h : frames = 0 <;> simp [raw_data_callback, h]

/-- C3: with a handler registered in the process-wide slot, the first
non-warning error delivered through the raw error callback empties the slot
and invokes that handler exactly once, with the typed error; any error
delivered afterwards, before a new registration, invokes nothing and the slot
stays empty. -/
theorem error_bridge_fires_once (h : Nat) (c1 c2 : Int) (m1 m2 : Option String)
    (t1 : RtAudioErrorType) (h1 : RtAudioErrorType.from_raw c1 = some t1)
    (hw : t1 ≠ RtAudioErrorType.Warning) :
    (raw_error_callback c1 m1 (some h)).fst = none
    ∧ (raw_error_callback c1 m1 (some h)).snd
        = [(h, { type_ := t1, msg := lossyMsg m1 })]
    ∧ (raw_error_callback c2 m2 (raw_error_callback c1 m1 (some h)).fst).snd = []
    ∧ (raw_error_callback c2 m2 (raw_error_callback c1 m1 (some h)).fst).fst = none := by
  have e1 : raw_error_callback c1 m1 (some h)
      = (none, [(h, { type_ := t1, msg := lossyMsg m1 })]) := by
    simp [raw_error_callback, h1, hw]
  rw [e1]
  refine ⟨rfl, rfl, ?_, ?_⟩ <;>
  · rcases h2 : RtAudioErrorType.from_raw c2 with _ | t2
    · simp [raw_error_callback, h2]
    · by_cases hw2 : t2 = RtAudioErrorType.Warning <;>
        simp [raw_error_callback, h2, hw2]

/-- C3 witness: a driver error fires the registered handler exactly once and
a second driver error invokes nothing. -/
theorem error_bridge_fires_once_witness :
    (raw_error_callback 9 (some "boom") (some 7)).fst = none
    ∧ (raw_error_callback 9 (some "boom") (some 7)).snd
        = [(7, { type_ := RtAudioErrorType.DriverError, msg := some "boom" })]
    ∧ (raw_error_callback 9 none (raw_error_callback 9 (some "boom") (some 7)).fst).snd = []
    ∧ (raw_error_callback 9 none (raw_error_callback 9 (some "boom") (some 7)).fst).fst = none :=
  error_bridge_fires_once 7 9 9 (some "boom") none RtAudioErrorType.DriverError
    (by decide) (by decide)

/-- C8: a control-path error check lets a backend-reported warning continue
with success, only logging it; any other reported kind aborts the operation,
returned as a typed error carrying the kind and the optional message; and on
the realtime path a warning is dropped without invoking or clearing
anything. -/
theorem check_for_error_contract (stw ste : ErrState) (k : RtAudioErrorType)
    (c : Int) (m : Option String) (slot : Option Nat)
    (hw : RtAudioErrorType.from_raw stw.code = some RtAudioErrorType.Warning)
    (hk : RtAudioErrorType.from_raw ste.code = some k)
    (hkw : k ≠ RtAudioErrorType.Warning)
    (hcw : RtAudioErrorType.from_raw c = some RtAudioErrorType.Warning) :
    check_for_error stw
      = (Except.ok (), [{ type_ := RtAudioErrorType.Warning, msg := lossyMsg stw.msg }])
    ∧ check_for_error ste
      = (Except.error { type_ := k, msg := lossyMsg ste.msg }, [])
    ∧ raw_error_callback c m slot = (slot, []) := by
  refine ⟨?_, ?_, ?_⟩
  · simp [check_for_error, hw]
  · simp [check_for_error, hk, hkw]
  · simp [raw_error_callback, hcw]

/-- C8 witness: a concrete warning state continues and is logged, a concrete
driver-error state aborts with the typed error, and a warning on the realtime
path invokes nothing. -/
theorem check_for_error_contract_witness :
    check_for_error { code := 1, msg := none }
      = (Except.ok (), [{ type_ := RtAudioErrorType.Warning, msg := none }])
    ∧ check_for_error { code := 9, msg := some "bad driver" }
      = (Except.error { type_ := RtAudioErrorType.DriverError, msg := some "bad driver" }, [])
    ∧ raw_error_callback 1 none (some 3) = (some 3, []) :=
  check_for_error_contract { code := 1, msg := none } { code := 9, msg := some "bad driver" }
    RtAudioErrorType.DriverError 1 none (some 3)
    (by decide) (by decide) (by decide) (by decide)

/-- C6: stop is idempotent: after any stop the started flag is false, a
second stop leaves the stream unchanged and makes no backend call, and a stop
on a stream whose started flag is false makes no backend call and changes
nothing. -/
theorem stop_idempotent (s : Stream) (e1 e2 : ErrState) :
    ((s.stop e1).fst).started = false
    ∧ (s.stop e1).fst.stop e2 = ((s.stop e1).fst, [])
    ∧ (s.started = false → s.stop e1 = (s, [])) := by
  by_cases h : s.started <;> simp [Stream.stop, h]

/-- C6 witness: stopping a concrete stream whose started flag is false
changes nothing and makes no backend call. -/
theorem stop_idempotent_witness :
    Stream.stop streamW errNoneW = (streamW, []) :=
  (stop_idempotent streamW errNoneW errNoneW).2.2 rfl

/-- C7: closing any stream with a live handle, started or not, returns a host
whose handle is the very handle the stream owned (still non-null, and never
destroyed by the close), nulls the handle inside the final stream value, and
a subsequent drop of that closed stream performs no backend call at all, so
the handle is not released a second time. -/
theorem close_repurposes_handle (s : Stream) (e1 e2 e3 e4 : ErrState)
    (slotv : Option Nat) (hraw : s.raw ≠ 0) :
    (s.close e1 e2).fst.raw = s.raw
    ∧ (s.close e1 e2).fst.raw ≠ 0
    ∧ (s.close e1 e2).snd.fst.raw = 0
    ∧ (s.close e1 e2).snd.snd.filter BackendCall.isDestroy = []
    ∧ Stream.drop (s.close e1 e2).snd.fst e3 e4 slotv = (none, []) := by
  by_cases h : s.started <;>
    simp [Stream.close, Stream.stop, Stream.drop, h, hraw,
      BackendCall.isDestroy, List.filter]

/-- C7 witness: closing a concrete started stream returns its handle as a
live host, nulls it in the stream, destroys nothing, and the later drop makes
no backend call. -/
theorem close_repurposes_handle_witness :
    (streamStartedW.close errNoneW errNoneW).fst.raw = streamStartedW.raw
    ∧ (streamStartedW.close errNoneW errNoneW).fst.raw ≠ 0
    ∧ (streamStartedW.close errNoneW errNoneW).snd.fst.raw = 0
    ∧ (streamStartedW.close errNoneW errNoneW).snd.snd.filter BackendCall.isDestroy = []
    ∧ Stream.drop (streamStartedW.close errNoneW errNoneW).snd.fst errNoneW errNoneW none
        = (none, []) :=
  close_repurposes_handle streamStartedW errNoneW errNoneW errNoneW errNoneW none
    (by decide)

/-- C2 counterexample: opening with both device configurations absent is not
rejected before a backend call; the wrapper makes the backend open call (with
two null device-parameter pointers) followed by the error query and the
rollback close, as this concrete trace shows. -/
theorem open_both_none_backend_called_cex :
    (Stream.new { raw := 1 } none none SampleFormat.Float32 44100 512 optsW 7
        none bkUseW).calls
      = [BackendCall.open_stream 1 none none, BackendCall.error_query 1,
         BackendCall.close_stream 1] := rfl

/-- C2 amended: opening with both device configurations absent (and valid
options) is not rejected by the wrapper itself; the backend open call is made
with two null device-parameter pointers, and when the backend then reports a
non-warning error the open fails with that backend error, the native stream
is closed and the handler slot is cleared, the host being returned to the
caller. -/
theorem open_both_none_delegates (host : Host) (fmt : SampleFormat)
    (srq bf : Nat) (opts : StreamOptions) (ecb : Nat) (slot : Option Nat)
    (b : OpenBackend) (ro : rtaudio_stream_options_t) (k : RtAudioErrorType)
    (hopts : opts.to_raw = Except.ok ro)
    (hk : RtAudioErrorType.from_raw b.err_after_open.code = some k)
    (hkw : k ≠ RtAudioErrorType.Warning) :
    BackendCall.open_stream host.raw none none
      ∈ (Stream.new host none none fmt srq bf opts ecb slot b).calls
    ∧ (Stream.new host none none fmt srq bf opts ecb slot b).result
        = Except.error (host, { type_ := k, msg := lossyMsg b.err_after_open.msg })
    ∧ (Stream.new host none none fmt srq bf opts ecb slot b).slot = none
    ∧ BackendCall.close_stream host.raw
        ∈ (Stream.new host none none fmt srq bf opts ecb slot b).calls := by
  have hc : (check_for_error b.err_after_open).fst
      = Except.error { type_ := k, msg := lossyMsg b.err_after_open.msg } := by
    simp [check_for_error, hk, hkw]
  unfold Stream.new
  rw [hopts, hc]
  simp

/-- C2 amended witness: a concrete both-absent open against a backend that
reports invalid use. -/
theorem open_both_none_delegates_witness :
    BackendCall.open_stream 1 none none
      ∈ (Stream.new { raw := 1 } none none SampleFormat.Float32 44100 512 optsW 7
          none bkUseW).calls
    ∧ (Stream.new { raw := 1 } none none SampleFormat.Float32 44100 512 optsW 7
        none bkUseW).result
      = Except.error ({ raw := 1 },
          { type_ := RtAudioErrorType.InvalidUse, msg := none })
    ∧ (Stream.new { raw := 1 } none none SampleFormat.Float32 44100 512 optsW 7
        none bkUseW).slot = none
    ∧ BackendCall.close_stream 1
      ∈ (Stream.new { raw := 1 } none none SampleFormat.Float32 44100 512 optsW 7
          none bkUseW).calls :=
  open_both_none_delegates { raw := 1 } SampleFormat.Float32 44100 512 optsW 7
    none bkUseW roW RtAudioErrorType.InvalidUse rfl (by decide) (by decide)

/-- C4 counterexample: a successful open whose backend reports a stream
sample rate of 0 keeps the caller-requested sample rate (48000) in the
returned `StreamInfo` instead of the value read back from the backend. -/
theorem stream_new_sample_rate_echo_cex :
    ((Stream.new { raw := 1 }
        (some { device_id := 3, num_channels := 2, first_channel := 0 })
        none SampleFormat.Float32 48000 256 optsW 7 none bkSr0W).result.map
      (fun s => s.info.sample_rate)) = Except.ok 48000
    ∧ bkSr0W.stream_sample_rate = 0 := ⟨rfl, rfl⟩

/-- C4 amended: on every successful open, `max_frames` is the negotiated
frame count the backend wrote back through the open call; `sample_rate` is
the backend-reported stream sample rate whenever that report is positive and
the requested rate is kept when the backend reports 0; and `latency` is
`some` of the backend-reported latency exactly when that report is positive,
otherwise `none`. -/
theorem stream_new_negotiated_info (host : Host) (od idv : Option DeviceParams)
    (fmt : SampleFormat) (srq bf : Nat) (opts : StreamOptions) (ecb : Nat)
    (slot : Option Nat) (b : OpenBackend) (s : Stream)
    (hok : (Stream.new host od idv fmt srq bf opts ecb slot b).result = Except.ok s) :
    s.info.max_frames = b.negotiated_frames
    ∧ s.info.sample_rate
        = (if b.stream_sample_rate > 0 then b.stream_sample_rate else srq)
    ∧ s.info.latency = (if b.latency > 0 then some b.latency.toNat else none) := by
  unfold Stream.new at hok
  rcases ho : opts.to_raw with e | ro <;> rw [ho] at hok
  · simp at hok
  · rcases h1 : (check_for_error b.err_after_open).fst with e1 | u1 <;> rw [h1] at hok
    · simp at hok
    · rcases h2 : (check_for_error b.err_after_latency).fst with e2 | u2 <;> rw [h2] at hok
      · simp at hok
      · rcases h3 : (check_for_error b.err_after_sr).fst with e3 | u3 <;> rw [h3] at hok
        · simp at hok
        · simp only [Except.ok.injEq] at hok
          by_cases hl : b.latency > 0 <;> by_cases hs : b.stream_sample_rate > 0 <;>
            simp [← hok, hl, hs]

/-- C4 amended witness: a concrete successful open against a backend
reporting 512 negotiated frames, latency 64 and sample rate 44100. -/
theorem stream_new_negotiated_info_witness :
    sNW.info.max_frames = 512
    ∧ sNW.info.sample_rate = 44100
    ∧ sNW.info.latency = some 64 :=
  stream_new_negotiated_info { raw := 1 }
    (some { device_id := 3, num_channels := 2, first_channel := 0 }) none
    SampleFormat.Float32 48000 256 optsW 7 none bkOkW sNW rfl

/-- C5: every failing open (entered with an empty handler slot) returns the
very host it consumed, still holding its non-null handle; the backend open
calls made on the way are matched one-for-one by close calls, the native
handle is never destroyed, and the process-wide handler slot ends cleared. -/
theorem open_failure_rolls_back (host : Host) (od idv : Option DeviceParams)
    (fmt : SampleFormat) (srq bf : Nat) (opts : StreamOptions) (ecb : Nat)
    (b : OpenBackend) (host2 : Host) (e : RtAudioError)
    (hraw : host.raw ≠ 0)
    (hfail : (Stream.new host od idv fmt srq bf opts ecb none b).result
        = Except.error (host2, e)) :
    host2 = host
    ∧ host2.raw ≠ 0
    ∧ ((Stream.new host od idv fmt srq bf opts ecb none b).calls.filter
        BackendCall.isOpen).length
      = ((Stream.new host od idv fmt srq bf opts ecb none b).calls.filter
        BackendCall.isClose).length
    ∧ (Stream.new host od idv fmt srq bf opts ecb none b).calls.filter
        BackendCall.isDestroy = []
    ∧ (Stream.new host od idv fmt srq bf opts ecb none b).slot = none := by
  unfold Stream.new at hfail ⊢
  rcases ho : opts.to_raw with eo | ro <;> rw [ho] at hfail
  · simp only [Except.error.injEq, Prod.mk.injEq] at hfail
    simp [← hfail.1, hraw]
  · rcases h1 : (check_for_error b.err_after_open).fst with e1 | u1 <;> rw [h1] at hfail
    · simp only [Except.error.injEq, Prod.mk.injEq] at hfail
      simp [← hfail.1, hraw, BackendCall.isOpen, BackendCall.isClose,
        BackendCall.isDestroy, List.filter]
    · rcases h2 : (check_for_error b.err_after_latency).fst with e2 | u2 <;>
        rw [h2] at hfail
      · simp only [Except.error.injEq, Prod.mk.injEq] at hfail
        simp [← hfail.1, hraw, BackendCall.isOpen, BackendCall.isClose,
          BackendCall.isDestroy, List.filter]
      · rcases h3 : (check_for_error b.err_after_sr).fst with e3 | u3 <;>
          rw [h3] at hfail
        · simp only [Except.error.injEq, Prod.mk.injEq] at hfail
          simp [← hfail.1, hraw, BackendCall.isOpen, BackendCall.isClose,
            BackendCall.isDestroy, List.filter]
        · simp at hfail

/-- C5 witness: a concrete failing open (backend reports invalid use at the
open call) rolls back fully. -/
theorem open_failure_rolls_back_witness :
    ({ raw := 1 } : Host) = { raw := 1 }
    ∧ ({ raw := 1 } : Host).raw ≠ 0
    ∧ ((Stream.new { raw := 1 }
          (some { device_id := 3, num_channels := 2, first_channel := 0 }) none
          SampleFormat.Float32 48000 256 optsW 7 none bkUseW).calls.filter
        BackendCall.isOpen).length
      = ((Stream.new { raw := 1 }
          (some { device_id := 3, num_channels := 2, first_channel := 0 }) none
          SampleFormat.Float32 48000 256 optsW 7 none bkUseW).calls.filter
        BackendCall.isClose).length
    ∧ (Stream.new { raw := 1 }
          (some { device_id := 3, num_channels := 2, first_channel := 0 }) none
          SampleFormat.Float32 48000 256 optsW 7 none bkUseW).calls.filter
        BackendCall.isDestroy = []
    ∧ (Stream.new { raw := 1 }
          (some { device_id := 3, num_channels := 2, first_channel := 0 }) none
          SampleFormat.Float32 48000 256 optsW 7 none bkUseW).slot = none :=
  open_failure_rolls_back { raw := 1 }
    (some { device_id := 3, num_channels := 2, first_channel := 0 }) none
    SampleFormat.Float32 48000 256 optsW 7 bkUseW { raw := 1 }
    { type_ := RtAudioErrorType.InvalidUse, msg := none } (by decide) rfl

end Rtaudio
